import Mathlib

/-!
Shallow embedding of `src/ViewerBot.py` (HZRD-Media/tvtb_live).

The program is a single-file Discord/Twitch bridge.  Its mutable state is a
handful of module-level containers:

  * `twitch_bot.active_users` : a Python `set` of chat-participant names
    (the Participant Observer), filled by `event_message` (line 107) and
    cleared once per reporting cycle (line 216);
  * `active_links`            : a dict stream-username → asyncio task
    (the Session Registry, line 78);
  * `user_appearance_count`   : a dict participant → count (line 81);
  * `raiders`                 : a `set` of raider names (line 84);
  * `bot_usernames`           : a list of excluded names (lines 42–69, 300).

Python sets and dicts are modelled as insertion-ordered duplicate-free
lists / association lists, which matches CPython observable iteration
order for dicts and is sufficient for the set (where only membership and
the produced element multiset matter).  `asyncio` tasks are abstract `Nat`
handles.  Network sends are modelled as lists of produced strings; I/O
failures that the code logs and swallows are not modelled (they do not
change the state transitions proved about here).
-/

namespace ViewerBot

/-- Python `str.lower()` (the identities at issue are ASCII). -/
def pyLower (s : String) : String :=
  String.mk (s.data.map Char.toLower)

/-- The characters Python `str.split()` treats as whitespace. -/
def pyIsSpace (c : Char) : Bool :=
  c = ' ' || c = '\t' || c = '\n' || c = '\r' || c = '\x0b' || c = '\x0c'

/-- If `pat` is a leading pattern of the character list, return the
remainder after it. -/
def chopPattern : List Char → List Char → Option (List Char)
  | [], cs => some cs
  | _ :: _, [] => none
  | p :: ps, c :: cs => if c = p then chopPattern ps cs else none

/-- Splitting a character list at the non-overlapping occurrences of a
pattern, scanning left to right; `fuel` bounds the scan (any value above
the list length is exact).  Empty pieces are kept, as Python
`str.split(sep)` keeps them. -/
def splitPatternFuel (sep : List Char) : Nat → List Char → List (List Char)
  | 0, cs => [cs]
  | _ + 1, [] => [[]]
  | fuel + 1, c :: cs =>
    match chopPattern sep (c :: cs) with
    | some rest => [] :: splitPatternFuel sep fuel rest
    | none =>
      match splitPatternFuel sep fuel cs with
      | [] => [[c]]
      | w :: ws => (c :: w) :: ws

/-- Python `s.split(sep)` for a non-empty separator. -/
def pySplitOn (s sep : String) : List String :=
  (splitPatternFuel sep.data (s.data.length + 1) s.data).map String.mk

/-- Splitting a character list at every character satisfying `p`,
keeping empty pieces. -/
def splitCharsBy (p : Char → Bool) : List Char → List (List Char)
  | [] => [[]]
  | c :: cs =>
    match splitCharsBy p cs with
    | [] => [[]]
    | w :: ws => if p c then [] :: w :: ws else (c :: w) :: ws

/-- Python `set.add` on an insertion-ordered duplicate-free list model:
keeps an existing element in place, appends a new one. -/
def setAdd (s : List String) (x : String) : List String :=
  if x ∈ s then s else s ++ [x]

/-- Python `d.get(k, default)` on an insertion-ordered association-list
model of a dict (keys are unique in every list built by `dictSet`). -/
def dictGetD : List (String × Nat) → String → Nat → Nat
  | [], _, d => d
  | p :: m, k, d => if p.1 = k then p.2 else dictGetD m k d

/-- Python `d[k] = v`: updating an existing key keeps its position,
a fresh key is appended at the end (CPython dict insertion order). -/
def dictSet : List (String × Nat) → String → Nat → List (String × Nat)
  | [], k, v => [(k, v)]
  | p :: m, k, v => if p.1 = k then (k, v) :: m else p :: dictSet m k v

/-- Line 183: `user_appearance_count[user] = user_appearance_count.get(user, 0) + 1`. -/
def tallyIncrement (m : List (String × Nat)) (u : String) : List (String × Nat) :=
  dictSet m u (dictGetD m u 0 + 1)

/-- The global mutable state of `ViewerBot.py`. -/
structure BotState where
  /-- `twitch_bot.active_users` (line 91): the Participant Observer set. -/
  active_users : List String
  /-- `active_links` (line 78): stream username → task handle. -/
  active_links : List (String × Nat)
  /-- Fresh-handle counter standing in for `asyncio.create_task`. -/
  nextTask : Nat
  /-- `user_appearance_count` (line 81): the Appearance Tally dict. -/
  user_appearance_count : List (String × Nat)
  /-- `raiders` (line 84): the Raid Ledger set. -/
  raiders : List String
  /-- `bot_usernames` (lines 69, 300): the current exclusion list. -/
  bot_usernames : List String
deriving Repr, DecidableEq

/-- The state right after module initialisation, with `bots` the exclusion
list returned by the initial `load_bot_usernames` call (line 69). -/
def initState (bots : List String) : BotState :=
  { active_users := []
    active_links := []
    nextTask := 0
    user_appearance_count := []
    raiders := []
    bot_usernames := bots }

/-- `event_message` (line 107): `self.active_users.add(message.author.name)`. -/
def record (s : BotState) (name : String) : BotState :=
  { s with active_users := setAdd s.active_users name }

/-- A sequence of `record` calls. -/
def recordAll (s : BotState) (names : List String) : BotState :=
  names.foldl record s

/-- `TwitchBot.get_active_users` (lines 141–142): `return list(self.active_users)`.
A pure read: the underlying set is not modified. -/
def get_active_users (active_users : List String) : List String :=
  active_users

/-- Line 172: `[user for user in active_users if user.lower() not in bot_usernames]`. -/
def filteredUsers (active : List String) (bots : List String) : List String :=
  active.filter (fun u => decide (pyLower u ∉ bots))

/-- The possible outcomes of the HTTP fetch inside `load_bot_usernames`
(lines 45–59): a non-200 status, a JSON decode error, or a parsed JSON
object whose optional key `bot_usernames` holds a list of names. -/
inductive FetchResult where
  | transportFailure (status : Nat)
  | decodeFailure
  | success (payload : Option (List String))
deriving Repr, DecidableEq

/-- `load_bot_usernames` (lines 45–59): returns `[]` on a non-200 status
or a JSON decode error, and `data.get('bot_usernames', [])` on success. -/
def load_bot_usernames : FetchResult → List String
  | .transportFailure _ => []
  | .decodeFailure => []
  | .success none => []
  | .success (some names) => names

/-- Result of `start_tracking`: new state, messages sent to the output
channel, and the Twitch channels joined. -/
structure StartResult where
  state : BotState
  messages : List String
  joined : List String
deriving Repr, DecidableEq

/-- `start_tracking` (lines 222–232): a no-op when the username is already
in `active_links`; otherwise creates a task, registers it, announces the
start, and joins the Twitch channel. -/
def start_tracking (s : BotState) (u : String) : StartResult :=
  if u ∈ s.active_links.map Prod.fst then
    { state := s, messages := [], joined := [] }
  else
    { state :=
        { s with
          active_links := s.active_links ++ [(u, s.nextTask)]
          nextTask := s.nextTask + 1 }
      messages := ["Started tracking " ++ u ++ "."]
      joined := [u] }

/-- Result of the stop branch of `on_message_delete`: new state, messages
sent, Twitch channels parted, and whether a session was actually stopped. -/
structure StopResult where
  state : BotState
  messages : List String
  parted : List String
  stopped : Bool
deriving Repr, DecidableEq

/-- The body of `on_message_delete` from the registry-membership test on
(lines 281–348), with the already-extracted username `u` as a parameter
and `fetch` the outcome of the `load_bot_usernames` call at line 300.
When `u` is tracked: pops it from `active_links`, cancels the task,
announces the stop, parts the channel, reloads `bot_usernames`, emits the
end-of-session summary (singles in reverse insertion order, multiples in
reverse insertion order, raiders), and clears the tally and the ledger.
The `os.system` console clear (line 296) has no modelled effect. -/
def stopTracking (s : BotState) (u : String) (fetch : FetchResult) : StopResult :=
  if u ∈ s.active_links.map Prod.fst then
    let multi_appearance_users :=
      (s.user_appearance_count.filter (fun p => decide (p.2 > 1))).map Prod.fst
    let single_appearance_users :=
      (s.user_appearance_count.filter (fun p => p.2 == 1)).map Prod.fst
    let singleMsg :=
      if single_appearance_users.isEmpty then
        "No users appeared in only one list."
      else
        "Users who appeared in only one list: " ++
          String.intercalate ", " single_appearance_users.reverse
    let multiMsg :=
      if multi_appearance_users.isEmpty then
        "No users appeared in more than one list."
      else
        "Users who appeared in multiple lists: " ++
          String.intercalate ", " multi_appearance_users.reverse
    let raidersMsg :=
      if s.raiders.isEmpty then
        "No users raided the channel."
      else
        "Users who raided the channel: " ++ String.intercalate ", " s.raiders
    { state :=
        { s with
          active_links := s.active_links.filter (fun p => p.1 != u)
          bot_usernames := load_bot_usernames fetch
          user_appearance_count := []
          raiders := [] }
      messages :=
        ["Stopped tracking " ++ u ++ " as the link was removed.",
         singleMsg, multiMsg, raidersMsg]
      parted := [u]
      stopped := true }
  else
    { state := s, messages := [], parted := [], stopped := false }

/-- Python `sub in s` for a non-empty `sub`: `s.split(sub)` yields at
least two parts exactly when `sub` occurs in `s`. -/
def pyContains (s sub : String) : Bool :=
  (pySplitOn s sub).length ≥ 2

/-- Python `s.split()` (no separator): split on whitespace runs, dropping
empty pieces. -/
def pySplitWhitespace (s : String) : List String :=
  ((splitCharsBy pyIsSpace s.data).filter (fun w => !w.isEmpty)).map String.mk

/-- Lines 260 and 278: `content.split('twitch.tv/')[-1].split()[0]`.
The trailing `[0]` raises `IndexError` when the whitespace split is
empty, so the embedding returns `Option`. -/
def extractTwitchUsername (content : String) : Option String :=
  match pySplitWhitespace ((pySplitOn content "twitch.tv/").getLastD "") with
  | [] => none
  | w :: _ => some w

/-- Outcome of the link-extraction prelude shared by `on_message`
(lines 256–260) and `on_message_delete` (lines 276–278). -/
inductive ExtractOutcome where
  | noLink
  | extracted (u : String)
  | indexError
deriving Repr, DecidableEq

/-- The guard `'twitch.tv' in message.content` followed by the extraction
expression: `noLink` when the marker is absent, `indexError` when the
extraction raises. -/
def linkExtract (content : String) : ExtractOutcome :=
  if pyContains content "twitch.tv" then
    match extractTwitchUsername content with
    | some u => .extracted u
    | none => .indexError
  else .noLink

/-- One iteration of the `post_viewers_list` loop body (lines 167–217),
on the exception-free path, with `stream_data` the viewer count returned
by `get_twitch_stream_data` (`none` when the stream is not live).
Reads the Participant Observer, filters out excluded names, announces the
filtered list (or a no-users notice), increments the Appearance Tally for
each filtered user, reports the viewer count, and finally clears the
observer set (line 216). -/
def postViewersCycle (s : BotState) (u : String) (stream_data : Option Nat) :
    BotState × List String :=
  let active_users := get_active_users s.active_users
  let step1 : BotState × List String :=
    if active_users.isEmpty then
      (s, ["No active chat users detected for " ++ u ++ "."])
    else
      let filtered_users := filteredUsers active_users s.bot_usernames
      if filtered_users.isEmpty then
        (s, ["No non-bot chat users detected for " ++ u ++ "."])
      else
        ({ s with
            user_appearance_count :=
              filtered_users.foldl tallyIncrement s.user_appearance_count },
         ["Active users interacting in " ++ u ++ ": " ++
            String.intercalate ", " filtered_users])
  let step2 : List String :=
    match stream_data with
    | some viewer_count =>
        [u ++ " currently has " ++ toString viewer_count ++ " viewers."]
    | none => [u ++ " is not currently live."]
  ({ step1.1 with active_users := [] }, step1.2 ++ step2)

/-- One reporting cycle in context: the chat events delivered since the
previous cycle record `arrivals` into the observer, then the loop body
runs. -/
def runCycle (s : BotState) (u : String) (arrivals : List String)
    (stream_data : Option Nat) : BotState × List String :=
  postViewersCycle (recordAll s arrivals) u stream_data

/-- A run of reporting cycles, each given by the participant arrivals of
that cycle (stream metadata does not affect the tally and is taken as
`none`). -/
def runCycles (s : BotState) (u : String) : List (List String) → BotState
  | [] => s
  | arrivals :: rest => runCycles (runCycle s u arrivals none).1 u rest

/-- Line 158: `asyncio.sleep(min(10 * attempt, 60))` — the delay slept
after failed reconnection attempt number `attempt`. -/
def reconnectDelay (attempt : Nat) : Nat :=
  min (10 * attempt) 60

/-- The sleeps performed by `reconnect` (lines 151–159) when, starting at
attempt number `attempt`, the next `failures` connection attempts raise
and the one after succeeds.  Defined for every `failures`: the recursion
never gives up. -/
def reconnectDelays (attempt : Nat) (failures : Nat) : List Nat :=
  match failures with
  | 0 => []
  | f + 1 => reconnectDelay attempt :: reconnectDelays (attempt + 1) f

/-! ## Helper lemmas -/

/-- Membership in the set model after an `add`. -/
theorem mem_setAdd {s : List String} {x u : String} :
    u ∈ setAdd s x ↔ u ∈ s ∨ u = x := by
  unfold setAdd
  split
  · rename_i hx
    constructor
    · exact Or.inl
    · rintro (h | rfl)
      · exact h
      · exact hx
  · simp

/-- `setAdd` keeps the set model duplicate-free. -/
theorem setAdd_nodup {s : List String} {x : String} (h : s.Nodup) :
    (setAdd s x).Nodup := by
  unfold setAdd
  split
  · exact h
  · rename_i hx
    simp [List.nodup_append, h, hx]

/-- Folding `setAdd` keeps the set model duplicate-free. -/
theorem foldl_setAdd_nodup (xs : List String) :
    ∀ init : List String, init.Nodup → (xs.foldl setAdd init).Nodup := by
  induction xs with
  | nil => intro init h; exact h
  | cons x xs ih => intro init h; exact ih _ (setAdd_nodup h)

/-- Membership after folding `setAdd` over a list of arrivals. -/
theorem mem_foldl_setAdd (xs : List String) :
    ∀ (init : List String) (u : String),
      u ∈ xs.foldl setAdd init ↔ u ∈ init ∨ u ∈ xs := by
  induction xs with
  | nil => intro init u; simp
  | cons x xs ih =>
      intro init u
      rw [List.foldl_cons, ih]
      simp [mem_setAdd]
      tauto

/-- A run of `record` calls only grows the observer set, by `setAdd`. -/
theorem recordAll_eq (names : List String) :
    ∀ s : BotState, recordAll s names =
      { s with active_users := names.foldl setAdd s.active_users } := by
  induction names with
  | nil => intro s; rfl
  | cons a rest ih => intro s; exact ih (record s a)

/-- Reading then writing-back a tally key. -/
theorem dictGetD_dictSet (m : List (String × Nat)) (k k' : String) (v : Nat) :
    dictGetD (dictSet m k v) k' 0 = if k = k' then v else dictGetD m k' 0 := by
  induction m with
  | nil =>
      by_cases h : k = k' <;> simp [dictSet, dictGetD, h]
  | cons p m ih =>
      by_cases h1 : p.1 = k
      · by_cases h2 : k = k'
        · simp [dictSet, dictGetD, h1, h2]
        · have h3 : ¬ p.1 = k' := fun h => h2 (h1.symm.trans h)
          simp [dictSet, dictGetD, h1, h2, h3]
      · by_cases h2 : p.1 = k'
        · have h3 : ¬ k = k' := fun h => h1 (h2.trans h.symm)
          have h4 : ¬ k' = k := fun h => h3 h.symm
          simp [dictSet, dictGetD, h1, h2, h3, h4]
        · simp [dictSet, dictGetD, h1, h2, ih]

/-- Line 183 bumps exactly the incremented key. -/
theorem dictGetD_tallyIncrement (m : List (String × Nat)) (k x : String) :
    dictGetD (tallyIncrement m x) k 0 =
      dictGetD m k 0 + if x = k then 1 else 0 := by
  unfold tallyIncrement
  rw [dictGetD_dictSet]
  by_cases h : x = k
  · subst h; simp
  · simp [h]

/-- The tally increment loop at lines 182–183 adds the multiplicity of a
key in the iterated list to its count. -/
theorem dictGetD_foldl_tallyIncrement (xs : List String) (k : String) :
    ∀ m, dictGetD (xs.foldl tallyIncrement m) k 0 =
      dictGetD m k 0 + xs.count k := by
  induction xs with
  | nil => intro m; simp
  | cons x xs ih =>
      intro m
      rw [List.foldl_cons, ih, dictGetD_tallyIncrement, List.count_cons]
      by_cases h : x = k
      · simp [h]
        omega
      · simp [h]

/-- Unfiltered characterisation of the exclusion filter at line 172. -/
theorem mem_filteredUsers {active bots : List String} {x : String} :
    x ∈ filteredUsers active bots ↔ x ∈ active ∧ pyLower x ∉ bots := by
  simp [filteredUsers]

/-- Every reporting cycle ends with the observer set cleared (line 216). -/
theorem postViewersCycle_active_users (s : BotState) (u : String) (sd : Option Nat) :
    (postViewersCycle s u sd).1.active_users = [] := rfl

/-- A reporting cycle does not touch the exclusion list. -/
theorem postViewersCycle_bot_usernames (s : BotState) (u : String) (sd : Option Nat) :
    (postViewersCycle s u sd).1.bot_usernames = s.bot_usernames := by
  unfold postViewersCycle
  dsimp only
  split
  · rfl
  · split <;> rfl

/-- A reporting cycle bumps the tally of a participant exactly when the
participant is in the filtered user list of that cycle. -/
theorem postViewersCycle_tally (s : BotState) (u P : String) (sd : Option Nat)
    (hn : s.active_users.Nodup) :
    dictGetD (postViewersCycle s u sd).1.user_appearance_count P 0 =
      dictGetD s.user_appearance_count P 0 +
        (if P ∈ filteredUsers s.active_users s.bot_usernames then 1 else 0) := by
  unfold postViewersCycle
  dsimp only [get_active_users]
  split
  · rename_i h
    have h0 : s.active_users = [] := by simpa using h
    simp [h0, filteredUsers]
  · split
    · rename_i h
      have h0 : filteredUsers s.active_users s.bot_usernames = [] := by
        simpa [List.isEmpty_iff] using h
      simp [h0]
    · rename_i h
      have hnf : (filteredUsers s.active_users s.bot_usernames).Nodup :=
        hn.filter _
      rw [dictGetD_foldl_tallyIncrement]
      by_cases hP : P ∈ filteredUsers s.active_users s.bot_usernames
      · rw [List.count_eq_one_of_mem hnf hP]
        simp [hP]
      · rw [List.count_eq_zero_of_not_mem hP]
        simp [hP]

/-- Invariant of a run of reporting cycles that each start with an empty
observer set: the tally of `P` grows by one per cycle whose filtered
arrivals contain `P`. -/
theorem runCycles_tally (u P : String) (bots : List String)
    (cycles : List (List String)) :
    ∀ s : BotState, s.active_users = [] → s.bot_usernames = bots →
      dictGetD (runCycles s u cycles).user_appearance_count P 0 =
        dictGetD s.user_appearance_count P 0 +
          (cycles.filter (fun arrivals =>
            decide (P ∈ filteredUsers (arrivals.foldl setAdd []) bots))).length := by
  induction cycles with
  | nil => intro s h1 h2; simp [runCycles]
  | cons a rest ih =>
      intro s h1 h2
      have hrec : recordAll s a =
          { s with active_users := a.foldl setAdd [] } := by
        rw [recordAll_eq, h1]
      have hrecu : (recordAll s a).active_users = a.foldl setAdd [] := by
        rw [hrec]
      have hnodup : (recordAll s a).active_users.Nodup := by
        rw [hrecu]; exact foldl_setAdd_nodup a [] List.nodup_nil
      have hstep : runCycles s u (a :: rest) =
          runCycles (postViewersCycle (recordAll s a) u none).1 u rest := rfl
      rw [hstep, ih _ (postViewersCycle_active_users _ u none)
            (by rw [postViewersCycle_bot_usernames, hrec]; exact h2),
          postViewersCycle_tally _ u P none hnodup]
      have htally : (recordAll s a).user_appearance_count =
          s.user_appearance_count := by rw [hrec]
      have hbots : (recordAll s a).bot_usernames = bots := by rw [hrec]; exact h2
      rw [htally, hrecu, hbots, List.filter_cons]
      by_cases hP : P ∈ filteredUsers (a.foldl setAdd []) bots <;>
        simp [hP, Nat.add_assoc, Nat.add_comm 1]

/-- `reconnect` sleeps once per failed attempt, whatever the starting
attempt number: the retry count is not bounded. -/
theorem reconnectDelays_length (f : Nat) :
    ∀ a : Nat, (reconnectDelays a f).length = f := by
  induction f with
  | zero => intro a; rfl
  | succ f ih => intro a; simp [reconnectDelays, ih]

/-- Frame facts about `start_tracking`: it never touches the observer set
or the exclusion list. -/
theorem start_tracking_frame (s : BotState) (v : String) :
    (start_tracking s v).state.active_users = s.active_users ∧
    (start_tracking s v).state.bot_usernames = s.bot_usernames := by
  unfold start_tracking
  split <;> exact ⟨rfl, rfl⟩

/-- Frame fact about the stop branch of `on_message_delete`: neither
branch touches the observer set. -/
theorem stopTracking_active_users (s : BotState) (u : String) (fetch : FetchResult) :
    (stopTracking s u fetch).state.active_users = s.active_users := by
  unfold stopTracking
  split <;> rfl

/-- A state with one tracked stream and an empty tally, used as concrete
input for witnesses. -/
def sampleTracked : BotState :=
  { active_users := []
    active_links := [("examplestreamer", 0)]
    nextTask := 1
    user_appearance_count := []
    raiders := []
    bot_usernames := ["botuser"] }

/-- A mid-session state with one tracked stream, a populated tally, a
populated raid ledger and an observer entry, used as concrete input for
witnesses. -/
def sampleSession : BotState :=
  { active_users := ["alice"]
    active_links := [("examplestreamer", 0)]
    nextTask := 1
    user_appearance_count := [("alice", 1), ("bob", 2), ("carol", 1)]
    raiders := ["r1", "r2"]
    bot_usernames := ["botuser"] }

/-! ## Claim theorems -/

/-- C1 counterexample: after recording `alice`, a first drain
(`get_active_users`) returns `[alice]`, and — the drain being a pure read
of the unchanged observer set — a second drain before any new record
returns `[alice]` again, not the empty sequence.  This refutes the claim
that the drain itself empties the underlying set. -/
theorem drain_does_not_clear_counterexample :
    get_active_users (record (initState []) "alice").active_users = ["alice"] ∧
    (record (initState []) "alice").active_users =
      (record (initState []) "alice").active_users ∧
    get_active_users (record (initState []) "alice").active_users ≠ [] := by
  refine ⟨rfl, rfl, ?_⟩
  decide

/-- C1 amended: for every sequence of `record` calls, a drain
(`get_active_users`) returns each distinct recorded identity exactly once
with no duplicates, but the drain does not empty the underlying set: it
is a pure read, and a second drain before any new record returns the same
sequence (the set is emptied only by the separate per-cycle clear at
line 216). -/
theorem drain_distinct_no_duplicates (names : List String) (u : String) :
    (get_active_users (recordAll (initState []) names).active_users).Nodup ∧
    (u ∈ get_active_users (recordAll (initState []) names).active_users ↔
      u ∈ names) ∧
    get_active_users
        (get_active_users (recordAll (initState []) names).active_users) =
      get_active_users (recordAll (initState []) names).active_users := by
  refine ⟨?_, ?_, rfl⟩
  · rw [recordAll_eq]
    exact foldl_setAdd_nodup names [] List.nodup_nil
  · rw [recordAll_eq]
    dsimp only [get_active_users, initState]
    rw [mem_foldl_setAdd]
    simp

/-- C2 counterexample: the identity `BOTUSER` and the exclusion entry
`BotUser` are equal ignoring case, yet the participant is not excluded:
the report filter keeps `BOTUSER` when the exclusion set stores
`BotUser`.  Exclusion filtering is not case-insensitive in both
directions. -/
theorem exclusion_not_case_insensitive_counterexample :
    pyLower "BOTUSER" = pyLower "BotUser" ∧
    filteredUsers ["BOTUSER"] ["BotUser"] = ["BOTUSER"] := by
  refine ⟨rfl, ?_⟩
  decide

/-- C2 amended: exclusion filtering lowercases the participant identity
only and then tests literal membership in the exclusion list: a
participant is excluded exactly when its lowercased identity is an entry
of the list.  In particular an entry stored as `botuser` excludes a
participant named `BOTUSER`, but an entry stored as `BotUser` does not. -/
theorem exclusion_lowercases_participant_only :
    (∀ (active bots : List String) (x : String),
        x ∈ filteredUsers active bots ↔ x ∈ active ∧ pyLower x ∉ bots) ∧
    filteredUsers ["BOTUSER"] ["botuser"] = [] ∧
    filteredUsers ["BOTUSER"] ["BotUser"] = ["BOTUSER"] := by
  exact ⟨fun active bots x => mem_filteredUsers, by decide, by decide⟩

/-- C4: `start_tracking` is idempotent — when the stream identifier is
already registered in `active_links`, the call leaves the whole state
unchanged (same registry, same task mapping), sends no second started
announcement, and joins no channel. -/
theorem start_tracking_idempotent (s : BotState) (u : String)
    (h : u ∈ s.active_links.map Prod.fst) :
    start_tracking s u = { state := s, messages := [], joined := [] } := by
  simp [start_tracking, h]

/-- C4 witness: starting `examplestreamer`, which `sampleTracked` already
tracks, changes nothing, announces nothing and joins nothing. -/
theorem start_tracking_idempotent_witness :
    "examplestreamer" ∈ sampleTracked.active_links.map Prod.fst ∧
    start_tracking sampleTracked "examplestreamer" =
      { state := sampleTracked, messages := [], joined := [] } :=
  ⟨by decide, start_tracking_idempotent sampleTracked "examplestreamer" (by decide)⟩

/-- C5: the stop branch of `on_message_delete` reports `true` exactly
when the identifier was tracked, and stopping an untracked identifier
returns `false` with no side effects at all: the registry, the tally, the
raid ledger, the observer set, the output surface and the chat client are
all untouched. -/
theorem stop_returns_iff_tracked (s : BotState) (u : String)
    (fetch : FetchResult) :
    ((stopTracking s u fetch).stopped = true ↔
      u ∈ s.active_links.map Prod.fst) ∧
    (u ∉ s.active_links.map Prod.fst →
      stopTracking s u fetch =
        { state := s, messages := [], parted := [], stopped := false }) := by
  by_cases h : u ∈ s.active_links.map Prod.fst <;> simp [stopTracking, h]

/-- C5 witness: stopping `otherstream`, which `sampleSession` does not
track, returns `false` and leaves the state untouched with no messages
and no parted channel. -/
theorem stop_untracked_witness :
    "otherstream" ∉ sampleSession.active_links.map Prod.fst ∧
    stopTracking sampleSession "otherstream" FetchResult.decodeFailure =
      { state := sampleSession, messages := [], parted := [], stopped := false } :=
  ⟨by decide,
   (stop_returns_iff_tracked sampleSession "otherstream"
      FetchResult.decodeFailure).2 (by decide)⟩

/-- C6 counterexample: the reconnect delays are 10, 20, 30, … — linear
in the attempt number, not exponential: the delay sequence is not
geometric (the ratio from attempt 1 to 2 is 2, but the delay before
attempt 4 is 30, not 40), and the delay after the third failed attempt
differs from the capped doubling `min (10 * 2 ^ (3 - 1)) 60 = 40` that
an exponential base-10s policy would give. -/
theorem reconnect_delay_not_exponential :
    reconnectDelay 1 = 10 ∧ reconnectDelay 2 = 20 ∧ reconnectDelay 3 = 30 ∧
    reconnectDelay 2 * reconnectDelay 2 ≠ reconnectDelay 1 * reconnectDelay 3 ∧
    reconnectDelay 3 ≠ min (10 * 2 ^ (3 - 1)) 60 := by
  decide

/-- C6 amended: the delay slept after failed reconnection attempt `n` is
`min (10 * n) 60` seconds — it grows linearly with `n` from a base of 10
seconds, capped at 60 seconds and non-decreasing — and the number of
retry attempts is unbounded: for every number `f` of consecutive
connection failures the procedure sleeps `f` times and tries again, never
giving up. -/
theorem reconnect_delay_linear_capped_unbounded (n f : Nat) :
    reconnectDelay n = min (10 * n) 60 ∧
    reconnectDelay n ≤ 60 ∧
    reconnectDelay n ≤ reconnectDelay (n + 1) ∧
    (reconnectDelays 1 f).length = f := by
  refine ⟨rfl, ?_, ?_, reconnectDelays_length f 1⟩
  · unfold reconnectDelay; omega
  · unfold reconnectDelay; omega

/-- C3: at session stop, the end-of-session summary sends, after the stop
announcement, the tally entries with count exactly 1 as a comma-joined
list in reverse insertion order (or the explicit message
`No users appeared in only one list.`), then the entries with count
greater than 1 likewise (or `No users appeared in more than one list.`),
then the raid ledger as a comma-joined list (or
`No users raided the channel.`); afterwards the tally and the ledger are
both empty, whatever they held before. -/
theorem stop_summary_partitions_and_clears (s : BotState) (u : String)
    (fetch : FetchResult) (h : u ∈ s.active_links.map Prod.fst) :
    (stopTracking s u fetch).messages =
      ["Stopped tracking " ++ u ++ " as the link was removed.",
       (let single :=
          (s.user_appearance_count.filter (fun p => p.2 == 1)).map Prod.fst
        if single.isEmpty then "No users appeared in only one list."
        else "Users who appeared in only one list: " ++
          String.intercalate ", " single.reverse),
       (let multi :=
          (s.user_appearance_count.filter (fun p => decide (p.2 > 1))).map Prod.fst
        if multi.isEmpty then "No users appeared in more than one list."
        else "Users who appeared in multiple lists: " ++
          String.intercalate ", " multi.reverse),
       (if s.raiders.isEmpty then "No users raided the channel."
        else "Users who raided the channel: " ++
          String.intercalate ", " s.raiders)] ∧
    (stopTracking s u fetch).state.user_appearance_count = [] ∧
    (stopTracking s u fetch).state.raiders = [] := by
  refine ⟨?_, ?_, ?_⟩ <;> simp [stopTracking, h]

/-- C3 witness: stopping the tracked stream of `sampleSession` — whose
tally holds `alice ↦ 1`, `bob ↦ 2`, `carol ↦ 1` in that insertion order,
with raiders `r1`, `r2` — announces the stop, lists the once-appearing
users as `carol, alice` (reverse insertion order), the multi-appearing
users as `bob`, the raiders as `r1, r2`, and clears both containers. -/
theorem stop_summary_witness :
    "examplestreamer" ∈ sampleSession.active_links.map Prod.fst ∧
    ((stopTracking sampleSession "examplestreamer"
        FetchResult.decodeFailure).messages =
      ["Stopped tracking examplestreamer as the link was removed.",
       "Users who appeared in only one list: carol, alice",
       "Users who appeared in multiple lists: bob",
       "Users who raided the channel: r1, r2"] ∧
    (stopTracking sampleSession "examplestreamer"
        FetchResult.decodeFailure).state.user_appearance_count = [] ∧
    (stopTracking sampleSession "examplestreamer"
        FetchResult.decodeFailure).state.raiders = []) :=
  ⟨by decide,
   stop_summary_partitions_and_clears sampleSession "examplestreamer"
     FetchResult.decodeFailure (by decide)⟩

/-- C7: after any run of reporting cycles starting from a fresh session
state, the tally count of a participant `P` equals the number of cycles
in whose filtered (non-excluded) participant list `P` appeared; a cycle
in which `P` does not appear leaves the count unchanged. -/
theorem tally_counts_appearing_cycles (u P : String) (bots : List String)
    (cycles : List (List String)) :
    dictGetD (runCycles (initState bots) u cycles).user_appearance_count P 0 =
      (cycles.filter (fun arrivals =>
        decide (P ∈ filteredUsers (arrivals.foldl setAdd []) bots))).length := by
  have h := runCycles_tally u P bots cycles (initState bots) rfl rfl
  simpa [initState, dictGetD] using h

/-- C8: `load_bot_usernames` returns the empty list on a non-200 response
and on a JSON decode error (it models the raise-free error handling at
lines 54–59), and the reload performed at session stop replaces the
previous exclusion list wholesale: the new list is exactly the fetch
result, with no dependence on — and no retention of — the old entries. -/
theorem reload_failure_empty_and_replacement (s : BotState) (u : String)
    (fetch : FetchResult) (status : Nat)
    (h : u ∈ s.active_links.map Prod.fst) :
    load_bot_usernames (FetchResult.transportFailure status) = [] ∧
    load_bot_usernames FetchResult.decodeFailure = [] ∧
    load_bot_usernames (FetchResult.success none) = [] ∧
    (stopTracking s u fetch).state.bot_usernames = load_bot_usernames fetch := by
  refine ⟨rfl, rfl, rfl, ?_⟩
  simp [stopTracking, h]

/-- C8 witness: stopping the tracked stream of `sampleSession` under a
404 transport failure replaces its exclusion list `[botuser]` with the
fetch result, here the empty list. -/
theorem reload_replacement_witness :
    "examplestreamer" ∈ sampleSession.active_links.map Prod.fst ∧
    (load_bot_usernames (FetchResult.transportFailure 404) = [] ∧
    load_bot_usernames FetchResult.decodeFailure = [] ∧
    load_bot_usernames (FetchResult.success none) = [] ∧
    (stopTracking sampleSession "examplestreamer"
        (FetchResult.transportFailure 404)).state.bot_usernames =
      load_bot_usernames (FetchResult.transportFailure 404)) :=
  ⟨by decide,
   reload_failure_empty_and_replacement sampleSession "examplestreamer"
     (FetchResult.transportFailure 404) 404 (by decide)⟩

/-- C10: stopping a session leaves the Participant Observer set
untouched — the stop branch clears only the registry entry, the tally and
the raid ledger — so an identity recorded after the last per-cycle clear
is still in the observer set after the stop, still there after a new
session starts, and (when not excluded under the reloaded list) appears
in the filtered participant list of the next reporting cycle. -/
theorem stop_preserves_observer_set (s : BotState) (u v w : String)
    (fetch : FetchResult)
    (hw : w ∈ s.active_users)
    (hb : pyLower w ∉ load_bot_usernames fetch)
    (h : u ∈ s.active_links.map Prod.fst) :
    (stopTracking s u fetch).state.active_users = s.active_users ∧
    (start_tracking (stopTracking s u fetch).state v).state.active_users =
      s.active_users ∧
    w ∈ filteredUsers
          (get_active_users
            (start_tracking (stopTracking s u fetch).state v).state.active_users)
          (start_tracking (stopTracking s u fetch).state v).state.bot_usernames := by
  have h1 : (stopTracking s u fetch).state.active_users = s.active_users :=
    stopTracking_active_users s u fetch
  have h2 := start_tracking_frame (stopTracking s u fetch).state v
  have h3 : (stopTracking s u fetch).state.bot_usernames =
      load_bot_usernames fetch := by
    simp [stopTracking, h]
  refine ⟨h1, h2.1.trans h1, ?_⟩
  rw [get_active_users, h2.1, h1, h2.2, h3]
  exact mem_filteredUsers.mpr ⟨hw, hb⟩

/-- C10 witness: `alice`, recorded in the observer of `sampleSession`,
survives the stop of `examplestreamer`, survives the start of
`nextstreamer`, and is in the filtered list of the next cycle under the
reloaded exclusion list `[nightbot]`. -/
theorem stop_preserves_observer_set_witness :
    "alice" ∈ sampleSession.active_users ∧
    pyLower "alice" ∉ load_bot_usernames (FetchResult.success (some ["nightbot"])) ∧
    "examplestreamer" ∈ sampleSession.active_links.map Prod.fst ∧
    ((stopTracking sampleSession "examplestreamer"
        (FetchResult.success (some ["nightbot"]))).state.active_users =
      sampleSession.active_users ∧
    (start_tracking (stopTracking sampleSession "examplestreamer"
        (FetchResult.success (some ["nightbot"]))).state
        "nextstreamer").state.active_users = sampleSession.active_users ∧
    "alice" ∈ filteredUsers
        (get_active_users
          (start_tracking (stopTracking sampleSession "examplestreamer"
              (FetchResult.success (some ["nightbot"]))).state
              "nextstreamer").state.active_users)
        (start_tracking (stopTracking sampleSession "examplestreamer"
            (FetchResult.success (some ["nightbot"]))).state
            "nextstreamer").state.bot_usernames) :=
  ⟨by decide, by decide, by decide,
   stop_preserves_observer_set sampleSession "examplestreamer" "nextstreamer"
     "alice" (FetchResult.success (some ["nightbot"]))
     (by decide) (by decide) (by decide)⟩

/-- C9: stream-identifier extraction is not total.  The content
`Check twitch.tv/` contains the marker `twitch.tv`, so both message
handlers attempt the extraction, yet
`content.split('twitch.tv/')[-1].split()[0]` has no element to index —
the embedding returns `none` and the handler outcome is `indexError` —
while a well-formed link extracts the identifier after the marker. -/
theorem link_extraction_error_branch_reachable :
    pyContains "Check twitch.tv/" "twitch.tv" = true ∧
    extractTwitchUsername "Check twitch.tv/" = none ∧
    linkExtract "Check twitch.tv/" = ExtractOutcome.indexError ∧
    linkExtract "Check twitch.tv/   " = ExtractOutcome.indexError ∧
    linkExtract "see twitch.tv/exampleUser now" =
      ExtractOutcome.extracted "exampleUser" := by
  refine ⟨rfl, rfl, rfl, rfl, rfl⟩

end ViewerBot
